import Mathlib

/-!
Shallow embedding of the Argon global model repository.

Part 1 embeds the reaction-kinetics script (`Argon Global Model.py`):
the generalized Arrhenius rate law, the ten rate-coefficient functions,
the ODE right-hand side `odesystem`, and the explicit-Euler integration
loop driven by `np.arange`.  Python floats are modelled as exact reals.

Part 2 embeds the Tecplot loader `process_tec_file` from
`plot_species_density.py`, parametric in the numeric token parser
(Python's builtin `float`), so the structural parsing behaviour can be
evaluated on concrete inputs.
-/

namespace ArgonModel

/-- Initial electron density (source: `E = 9.24e18`). -/
noncomputable def E : ℝ := 9.24e18

/-- Initial argon ground-state density (source: `Ar = 1.4e23`). -/
noncomputable def Ar : ℝ := 1.4e23

/-- Initial argon 4s excited-state density (source: `Ar4s = 1.43e18`). -/
noncomputable def Ar4s : ℝ := 1.43e18

/-- Initial argon 4p excited-state density (source: `Ar4p = 8.7e17`). -/
noncomputable def Ar4p : ℝ := 8.7e17

/-- Initial argon ion density (source: `Ar_ion = 9.24e18`). -/
noncomputable def Ar_ion : ℝ := 9.24e18

/-- Electron temperature (source: `Te = 5.4`). -/
noncomputable def Te : ℝ := 5.4

/-- Source: `def rate(A, B, C, D, T): return A * 10**(-B) * T**C * np.exp(-D/T)`.
Real powers are `Real.rpow`; real division by zero is the Lean convention
`x / 0 = 0` (the fallible Python behaviour at `T = 0` is modelled
separately by `ratePy`). -/
noncomputable def rate (A B C D T : ℝ) : ℝ :=
  A * (10 : ℝ) ^ (-B) * T ^ C * Real.exp (-D / T)

/-- Source: `def k1(Te): return 2.34e-14 * Te**0.59 * np.exp(-15.76 / Te)`. -/
noncomputable def k1 (T : ℝ) : ℝ := 2.34e-14 * T ^ (0.59 : ℝ) * Real.exp (-15.76 / T)

/-- Source: `def k2(Te): return rate(5.0, 15.0, 0.74, 11.56, Te)`. -/
noncomputable def k2 (T : ℝ) : ℝ := rate 5.0 15.0 0.74 11.56 T

/-- Source: `def k3(Te): return rate(4.3, 16.0, 0.74, 0, Te)`. -/
noncomputable def k3 (T : ℝ) : ℝ := rate 4.3 16.0 0.74 0 T

/-- Source: `def k4(Te): return rate(1.4, 14, 0.71, 13.2, Te)`. -/
noncomputable def k4 (T : ℝ) : ℝ := rate 1.4 14 0.71 13.2 T

/-- Source: `def k5(Te): return rate(3.9, 16, 0.71, 0, Te)`. -/
noncomputable def k5 (T : ℝ) : ℝ := rate 3.9 16 0.71 0 T

/-- Source: `def k6(Te): return rate(8.9, 13, 0.51, 1.59, Te)`. -/
noncomputable def k6 (T : ℝ) : ℝ := rate 8.9 13 0.51 1.59 T

/-- Source: `def k7(Te): return rate(3, 13, 0.51, 0, Te)`. -/
noncomputable def k7 (T : ℝ) : ℝ := rate 3 13 0.51 0 T

/-- Source: `def k8(Te): return rate(2.9, 14, 0.68, 15.759, Te)`. -/
noncomputable def k8 (T : ℝ) : ℝ := rate 2.9 14 0.68 15.759 T

/-- Source: `def k9(Te): return rate(6.8, 15, 0.67, 4.2, Te)`. -/
noncomputable def k9 (T : ℝ) : ℝ := rate 6.8 15 0.67 4.2 T

/-- Source: `def k10(Te): return rate(1.8, 13, 0.61, 2.61, Te)`. -/
noncomputable def k10 (T : ℝ) : ℝ := rate 1.8 13 0.61 2.61 T

/-- The five-component density state vector, in the fixed source order
`[E, Ar, Ar4s, Ar4p, Ar_ion]` (Electron, GroundState, ExcitedState1,
ExcitedState2, Ion). -/
structure Density where
  E : ℝ
  Ar : ℝ
  Ar4s : ℝ
  Ar4p : ℝ
  Ar_ion : ℝ

/-- Source: `rates = [k1(Te), k2(Te), ..., k10(Te)]` inside `odesystem`;
the global `Te` is made a parameter. -/
noncomputable def rates (T : ℝ) : List ℝ :=
  [k1 T, k2 T, k3 T, k4 T, k5 T, k6 T, k7 T, k8 T, k9 T, k10 T]

/-- Source: the `reactants` list of pairs inside `odesystem`. -/
noncomputable def reactants (nn : Density) : List (List ℝ) :=
  [[nn.E, nn.Ar], [nn.E, nn.Ar], [nn.E, nn.Ar4s], [nn.E, nn.Ar], [nn.E, nn.Ar4p],
   [nn.E, nn.Ar4s], [nn.E, nn.Ar4p], [nn.E, nn.Ar], [nn.E, nn.Ar4s], [nn.E, nn.Ar4p]]

/-- Source: `reaction_rates = [r * np.prod(reactant) for r, reactant in
zip(rates, reactants)]`. -/
noncomputable def reaction_rates (T : ℝ) (nn : Density) : List ℝ :=
  (List.zip (rates T) (reactants nn)).map (fun p => p.1 * p.2.prod)

/-- Source: `def odesystem(n)`, which destructures `reaction_rates` into
`R1, ..., R10` and returns the vector of temporal derivatives.  `R1` is
bound but not used by any derivative, exactly as in the source.  The
catch-all branch is unreachable (`reaction_rates` always has exactly ten
entries). -/
noncomputable def odesystem (T : ℝ) (nn : Density) : Density :=
  match reaction_rates T nn with
  | [_R1, R2, R3, R4, R5, R6, R7, R8, R9, R10] =>
    { E := R8 + R9 + R10
      Ar := -R2 + R3 - R4 + R5 - R8
      Ar4s := R2 - R3 - R6 + R7 - R9
      Ar4p := R4 - R5 + R6 - R7 - R10
      Ar_ion := R8 + R9 + R10 }
  | _ => { E := 0, Ar := 0, Ar4s := 0, Ar4p := 0, Ar_ion := 0 }

/-- One explicit-Euler update (source: `n = n + dt * dn`, elementwise on
the numpy vector). -/
noncomputable def eulerStep (T dtv : ℝ) (nn : Density) : Density :=
  { E := nn.E + dtv * (odesystem T nn).E
    Ar := nn.Ar + dtv * (odesystem T nn).Ar
    Ar4s := nn.Ar4s + dtv * (odesystem T nn).Ar4s
    Ar4p := nn.Ar4p + dtv * (odesystem T nn).Ar4p
    Ar_ion := nn.Ar_ion + dtv * (odesystem T nn).Ar_ion }

/-- `k` successive explicit-Euler updates. -/
noncomputable def stepN (T dtv : ℝ) : ℕ → Density → Density
  | 0, nn => nn
  | k + 1, nn => stepN T dtv k (eulerStep T dtv nn)

/-- Number of elements of `np.arange(start, stop, step)`:
`max 0 ⌈(stop - start) / step⌉` (exact-arithmetic semantics). -/
noncomputable def arangeLen (start stop step : ℝ) : ℕ :=
  (⌈(stop - start) / step⌉).toNat

/-- Source: `trange = np.arange(tspan[0], tspan[1], dt)`; element `i` is
`start + i * step`. -/
noncomputable def trange (start stop step : ℝ) : List ℝ :=
  (List.range (arangeLen start stop step)).map (fun i : ℕ => start + (i : ℝ) * step)

/-- The source integration loop, parametric in the list of loop times:
`for t in trange: dn = odesystem(n); result.append(n); n = n + dt * dn`.
Returns the recorded trajectory together with the final state. -/
noncomputable def eulerRun (T dtv : ℝ) : List ℝ → Density → List Density × Density
  | [], nn => ([], nn)
  | _t :: ts, nn =>
    let out := eulerRun T dtv ts (eulerStep T dtv nn)
    (nn :: out.1, out.2)

/-- The whole solver, with the source's hard-coded globals made
parameters: trajectory and final state of explicit Euler over
`np.arange(t0, tEnd, dtv)`. -/
noncomputable def integrate (T : ℝ) (n0 : Density) (t0 tEnd dtv : ℝ) :
    List Density × Density :=
  eulerRun T dtv (trange t0 tEnd dtv) n0

/-- Source: `tspan = (0.0, 5e-8)`. -/
noncomputable def tspan : ℝ × ℝ := (0.0, 5e-8)

/-- Source: `dt = 1e-12`. -/
noncomputable def dt : ℝ := 1e-12

/-- Source: `n = [E, Ar, Ar4s, Ar4p, Ar_ion]`, the initial density vector. -/
noncomputable def n : Density := ⟨E, Ar, Ar4s, Ar4p, Ar_ion⟩

/-- Source: the `result` list accumulated by the integration loop. -/
noncomputable def result : List Density := (eulerRun Te dt (trange tspan.1 tspan.2 dt) n).1

/-- The name of the Python exception raised by `-D / T` at `T = 0`. -/
def zeroDivErr : String := "ZeroDivisionError"

/-- Python evaluation of `rate` tracking its fallibility: with `T = 0`
the subterm `-D / T` (or `0.0 ** C` for negative `C`) raises
`ZeroDivisionError` before any value is produced; for `T ≠ 0` no
exception is raised and the value is computed in ℂ (Python's
`float ** float` returns a complex number for a negative base with
non-integral exponent, via the principal branch, which is `Complex.cpow`;
for positive `T` this complex value is the real `rate` value). -/
noncomputable def ratePy (A B C D T : ℝ) : Except String ℂ :=
  if T = 0 then Except.error zeroDivErr
  else Except.ok (((A : ℂ)) * (10 : ℂ) ^ ((-B : ℝ) : ℂ) * (T : ℂ) ^ ((C : ℝ) : ℂ) *
    Complex.exp (((-D / T : ℝ) : ℂ)))

/-- `Except` success test. -/
def okay {ε β : Type} : Except ε β → Bool
  | Except.ok _ => true
  | Except.error _ => false

end ArgonModel

namespace TecLoader

/-- The double-quote character (written via its code point so that it can
be compared against without a quote literal). -/
def dquote : Char := Char.ofNat 34

/-- The keyword starting a header block. -/
def varKw : String := "VARIABLES"

/-- The keyword ending the header block / a data zone. -/
def zoneKw : String := "ZONE"

/-- The keyword of a title line. -/
def titleKw : String := "TITLE"

/-- Loader error for a missing header block
(source: `raise ValueError(f"No VARIABLES block found in {file_path}")`). -/
def errNoVars : String := "No VARIABLES block found"

/-- Loader error for a numeric block not divisible by the column count
(source: `raise ValueError(f"Data inconsistency in file {file_path}")`). -/
def errInconsistent : String := "Data inconsistency"

/-- Is `pat` a leading segment of `text`? -/
def startsL : List Char → List Char → Bool
  | [], _ => true
  | _ :: _, [] => false
  | a :: as, b :: bs => a = b && startsL as bs

/-- Does `pat` occur contiguously inside `text`?  (Python's `pat in text`.) -/
def hasSub (pat : List Char) : List Char → Bool
  | [] => pat.isEmpty
  | c :: cs => startsL pat (c :: cs) || hasSub pat cs

/-- Python `pat in s` on strings. -/
def containsS (s pat : String) : Bool := hasSub pat.toList s.toList

/-- Python `s.upper()` (ASCII, which covers all keywords involved). -/
def upperS (s : String) : String := String.mk (s.toList.map Char.toUpper)

/-- Python `s.startswith(pat)`. -/
def startsWithS (s pat : String) : Bool := startsL pat.toList s.toList

/-- Python `s.strip()`: drop leading and trailing whitespace. -/
def trimS (s : String) : String :=
  String.mk (((s.toList.dropWhile Char.isWhitespace).reverse.dropWhile
    Char.isWhitespace).reverse)

/-- Tokenizer underlying Python `s.split()`: maximal runs of
non-whitespace characters, empties dropped. -/
def splitWsAux : List Char → List Char → List String
  | [], acc => if acc.isEmpty then [] else [String.mk acc.reverse]
  | c :: cs, acc =>
    if c.isWhitespace then
      if acc.isEmpty then splitWsAux cs [] else String.mk acc.reverse :: splitWsAux cs []
    else splitWsAux cs (c :: acc)

/-- Python `s.split()` (no argument: split on whitespace runs). -/
def splitWsS (s : String) : List String := splitWsAux s.toList []

/-- Scanner for Python `re.findall(r'\x22([^\x22]+)\x22', line)`:
non-overlapping quoted runs of one or more non-quote characters, left to
right.  `inQ` records whether the scan is inside an open quote, `acc` the
(reversed) characters collected since it opened. -/
def scanQuoted : List Char → Bool → List Char → List String
  | [], _, _ => []
  | c :: cs, false, _ =>
    if c = dquote then scanQuoted cs true [] else scanQuoted cs false []
  | c :: cs, true, acc =>
    if c = dquote then
      if acc.isEmpty then scanQuoted cs true []
      else String.mk acc.reverse :: scanQuoted cs false []
    else scanQuoted cs true (c :: acc)

/-- All quoted column names appearing in a line, in order. -/
def findallQuoted (s : String) : List String := scanQuoted s.toList false []

/-- The header-scanning loop of `process_tec_file`: walks the lines with
their indices, switching `inside` on at the first line containing
`VARIABLES`, collecting the stripped quoted names of every line from
then on, and stopping right after the first `ZONE` line; returns the
collected headers and `data_start_line` (`0` when no `ZONE` line is hit,
exactly as in the source). -/
def scanHeaders : List String → ℕ → Bool → List String → List String × ℕ
  | [], _, _, acc => (acc, 0)
  | line :: rest, idx, inside, acc =>
    let lu := upperS line
    let inside2 := inside || containsS lu varKw
    let acc2 := if inside2 then acc ++ (findallQuoted line).map trimS else acc
    if inside2 && containsS lu zoneKw then (acc2, idx + 1)
    else scanHeaders rest (idx + 1) inside2 acc2

/-- Python `[float(x) for x in tokens]`: all-or-nothing per line — the
comprehension raises (and the caller skips the line) when any token
fails to parse. -/
def parseAll {α : Type} (pf : String → Option α) : List String → Option (List α)
  | [] => some []
  | t :: ts =>
    match pf t, parseAll pf ts with
    | some v, some vs => some (v :: vs)
    | _, _ => none

/-- The data-collection loop of `process_tec_file` over
`lines[data_start_line:]`: stop at a `ZONE` line; skip blank lines and
lines starting (after stripping, uppercased) with `TITLE` or
`VARIABLES`; extend the flat value list with the parsed tokens of each
remaining line, silently skipping any line with an unparsable token.
Parametric in `pf`, the model of Python's builtin `float`. -/
def collectData {α : Type} (pf : String → Option α) : List String → List α
  | [] => []
  | line :: rest =>
    if containsS (upperS line) zoneKw then []
    else
      let l := trimS line
      if l = "" || startsWithS (upperS l) titleKw || startsWithS (upperS l) varKw then
        collectData pf rest
      else
        match parseAll pf (splitWsS l) with
        | some vs => vs ++ collectData pf rest
        | none => collectData pf rest

/-- Source: `def process_tec_file(file_path)` of `plot_species_density.py`,
with the file given as its list of lines and the return value the ordered
per-column `(name, values)` pairs that the source stores into a dict and
wraps in a DataFrame.  Column `i` receives the slice
`raw_data[i*num_points : (i+1)*num_points]` of the flat numeric block. -/
def process_tec_file {α : Type} (pf : String → Option α) (lines : List String) :
    Except String (List (String × List α)) :=
  let scanned := scanHeaders lines 0 false []
  let headers := scanned.1
  if headers = [] then Except.error errNoVars
  else
    let raw_data := collectData pf (lines.drop scanned.2)
    let num_vars := headers.length
    let total_values := raw_data.length
    if total_values % num_vars ≠ 0 then Except.error errInconsistent
    else
      let num_points := total_values / num_vars
      Except.ok (headers.enum.map
        (fun p => (p.2, (raw_data.drop (p.1 * num_points)).take num_points)))

/-- The headers computed by the header scan of `process_tec_file`. -/
def headersOf (lines : List String) : List String := (scanHeaders lines 0 false []).1

/-- The flat numeric block computed by the data loop of `process_tec_file`. -/
def dataOf {α : Type} (pf : String → Option α) (lines : List String) : List α :=
  collectData pf (lines.drop (scanHeaders lines 0 false []).2)

/-- A simple concrete token parser (decimal naturals) used to exercise the
loader on concrete inputs; it plays the role of Python's `float` in
witnesses, where only parse success/failure and the parsed list matter. -/
def natParseAux : List Char → ℕ → Option ℕ
  | [], acc => some acc
  | c :: cs, acc =>
    if c.isDigit then natParseAux cs (10 * acc + (c.toNat - 48)) else none

/-- Parse a nonempty all-digit token as a natural number. -/
def natParse (s : String) : Option ℕ :=
  if s.toList.isEmpty then none else natParseAux s.toList 0

end TecLoader

namespace ArgonModel

/-- The zip-product list `reaction_rates` written out elementwise
(`np.prod([a, b])` is `a * (b * 1)` as a `List.prod`). -/
theorem reaction_rates_def (T : ℝ) (nn : Density) :
    reaction_rates T nn =
      [k1 T * (nn.E * (nn.Ar * 1)), k2 T * (nn.E * (nn.Ar * 1)),
       k3 T * (nn.E * (nn.Ar4s * 1)), k4 T * (nn.E * (nn.Ar * 1)),
       k5 T * (nn.E * (nn.Ar4p * 1)), k6 T * (nn.E * (nn.Ar4s * 1)),
       k7 T * (nn.E * (nn.Ar4p * 1)), k8 T * (nn.E * (nn.Ar * 1)),
       k9 T * (nn.E * (nn.Ar4s * 1)), k10 T * (nn.E * (nn.Ar4p * 1))] := rfl

/-- `odesystem` written out fieldwise. -/
theorem odesystem_def (T : ℝ) (nn : Density) :
    odesystem T nn =
      { E := k8 T * (nn.E * (nn.Ar * 1)) + k9 T * (nn.E * (nn.Ar4s * 1)) +
          k10 T * (nn.E * (nn.Ar4p * 1))
        Ar := -(k2 T * (nn.E * (nn.Ar * 1))) + k3 T * (nn.E * (nn.Ar4s * 1)) -
          k4 T * (nn.E * (nn.Ar * 1)) + k5 T * (nn.E * (nn.Ar4p * 1)) -
          k8 T * (nn.E * (nn.Ar * 1))
        Ar4s := k2 T * (nn.E * (nn.Ar * 1)) - k3 T * (nn.E * (nn.Ar4s * 1)) -
          k6 T * (nn.E * (nn.Ar4s * 1)) + k7 T * (nn.E * (nn.Ar4p * 1)) -
          k9 T * (nn.E * (nn.Ar4s * 1))
        Ar4p := k4 T * (nn.E * (nn.Ar * 1)) - k5 T * (nn.E * (nn.Ar4p * 1)) +
          k6 T * (nn.E * (nn.Ar4s * 1)) - k7 T * (nn.E * (nn.Ar4p * 1)) -
          k10 T * (nn.E * (nn.Ar4p * 1))
        Ar_ion := k8 T * (nn.E * (nn.Ar * 1)) + k9 T * (nn.E * (nn.Ar4s * 1)) +
          k10 T * (nn.E * (nn.Ar4p * 1)) } := rfl

/-- The Electron and Ion components of the derivative coincide. -/
theorem odesystem_E_Ar_ion (T : ℝ) (nn : Density) :
    (odesystem T nn).E = (odesystem T nn).Ar_ion := rfl

/-- The trajectory recorded by the loop is the list of Euler iterates,
one sample per loop time, starting with the initial state. -/
theorem eulerRun_fst (T d : ℝ) (ts : List ℝ) (nn : Density) :
    (eulerRun T d ts nn).1 = (List.range ts.length).map (fun k => stepN T d k nn) := by
  induction ts generalizing nn with
  | nil => rfl
  | cons t ts ih =>
    show nn :: (eulerRun T d ts (eulerStep T d nn)).1 = _
    rw [ih, List.length_cons, List.range_succ_eq_map, List.map_cons, List.map_map]
    rfl

/-- One recorded sample per loop time. -/
theorem eulerRun_fst_length (T d : ℝ) (ts : List ℝ) (nn : Density) :
    (eulerRun T d ts nn).1.length = ts.length := by
  rw [eulerRun_fst, List.length_map, List.length_range]

/-- The running difference Electron − Ion of the final state equals its
initial value after any number of Euler steps. -/
theorem eulerRun_snd_diff (T d : ℝ) (ts : List ℝ) (nn : Density) :
    (eulerRun T d ts nn).2.E - (eulerRun T d ts nn).2.Ar_ion = nn.E - nn.Ar_ion := by
  induction ts generalizing nn with
  | nil => rfl
  | cons t ts ih =>
    show (eulerRun T d ts (eulerStep T d nn)).2.E -
      (eulerRun T d ts (eulerStep T d nn)).2.Ar_ion = _
    rw [ih]
    show nn.E + d * (odesystem T nn).E - (nn.Ar_ion + d * (odesystem T nn).Ar_ion) = _
    rw [odesystem_E_Ar_ion]
    ring

/-- `np.arange` produces `arangeLen` loop times. -/
theorem trange_length (a b s : ℝ) : (trange a b s).length = arangeLen a b s := by
  rw [trange, List.length_map, List.length_range]

/-- The trajectory of a run is the list of Euler iterates over the
`np.arange` grid. -/
theorem integrate_fst (T : ℝ) (n0 : Density) (t0 tEnd d : ℝ) :
    (integrate T n0 t0 tEnd d).1 =
      (List.range (arangeLen t0 tEnd d)).map (fun k => stepN T d k n0) := by
  rw [integrate, eulerRun_fst, trange_length]

/-- The trajectory length is the `np.arange` count. -/
theorem integrate_fst_length (T : ℝ) (n0 : Density) (t0 tEnd d : ℝ) :
    (integrate T n0 t0 tEnd d).1.length = arangeLen t0 tEnd d := by
  rw [integrate_fst, List.length_map, List.length_range]

/-- A nonempty run records the initial state first. -/
theorem integrate_head (T : ℝ) (n0 : Density) (t0 tEnd d : ℝ)
    (h : arangeLen t0 tEnd d ≠ 0) :
    (integrate T n0 t0 tEnd d).1.head? = some n0 := by
  rw [integrate_fst]
  obtain ⟨k, hk⟩ : ∃ k, arangeLen t0 tEnd d = k + 1 :=
    ⟨_, (Nat.succ_pred_eq_of_pos (Nat.pos_of_ne_zero h)).symm⟩
  rw [hk, List.range_succ_eq_map]
  rfl

/-- A positive step over a nonempty forward time range yields at least
one loop iteration. -/
theorem arangeLen_pos (t0 tEnd d : ℝ) (h1 : t0 < tEnd) (h2 : 0 < d) :
    0 < arangeLen t0 tEnd d := by
  have hx : 0 < (tEnd - t0) / d := div_pos (by linarith) h2
  have hc := Int.ceil_pos.mpr hx
  unfold arangeLen
  omega

/-- An empty or backward time range with positive step yields no loop
iterations. -/
theorem arangeLen_eq_zero (t0 tEnd d : ℝ) (h1 : tEnd ≤ t0) (h2 : 0 < d) :
    arangeLen t0 tEnd d = 0 := by
  have hx : (tEnd - t0) / d ≤ 0 := by
    rw [div_nonpos_iff]
    exact Or.inr ⟨by linarith, h2.le⟩
  have hc : ⌈(tEnd - t0) / d⌉ ≤ 0 := Int.ceil_le.mpr (by exact_mod_cast hx)
  unfold arangeLen
  omega

/-- The reference grid 0 to 5e-8 in steps of 1e-12 has 50000 points. -/
theorem arangeLen_ref : arangeLen 0 (5e-8) (1e-12) = 50000 := by
  unfold arangeLen
  norm_num
  rfl

/-- A range of exact real length 3/2 with unit step has 2 grid points
(`np.arange` takes the ceiling, not the floor). -/
theorem arangeLen_three_halves : arangeLen 0 (3 / 2) 1 = 2 := by
  unfold arangeLen
  rw [show (((3:ℝ) / 2) - 0) / 1 = 3 / 2 by norm_num]
  rw [show (⌈((3:ℝ) / 2)⌉ : ℤ) = 2 by rw [Int.ceil_eq_iff]; norm_num]
  rfl

/-- A unit range with unit step has one grid point. -/
theorem arangeLen_unit : arangeLen 0 1 1 = 1 := by
  unfold arangeLen
  norm_num

/-- Positivity of the general rate law for positive leading coefficient
and temperature. -/
theorem rate_pos (A B C D T : ℝ) (hA : 0 < A) (hT : 0 < T) : 0 < rate A B C D T := by
  unfold rate
  positivity

/-- Positivity of the reaction-1 coefficient for positive temperature. -/
theorem k1_pos (T : ℝ) (hT : 0 < T) : 0 < k1 T := by
  unfold k1
  positivity

/-- C1: for every density state vector and temperature T > 0, the
Electron and Ion components of `odesystem` coincide (both are
R8 + R9 + R10), and hence over any number of explicit-Euler steps of the
integration loop the difference Electron − Ion of the state keeps its
initial value exactly. -/
theorem charge_neutrality_invariant (T : ℝ) (hT : 0 < T) (nn : Density) (d : ℝ)
    (ts : List ℝ) :
    (odesystem T nn).E = (odesystem T nn).Ar_ion ∧
    (odesystem T nn).E = k8 T * (nn.E * (nn.Ar * 1)) + k9 T * (nn.E * (nn.Ar4s * 1)) +
      k10 T * (nn.E * (nn.Ar4p * 1)) ∧
    (eulerRun T d ts nn).2.E - (eulerRun T d ts nn).2.Ar_ion = nn.E - nn.Ar_ion :=
  ⟨odesystem_E_Ar_ion T nn, rfl, eulerRun_snd_diff T d ts nn⟩

/-- C1 witness at T = 1, unit step, one loop iteration, starting from the
source's initial densities. -/
theorem charge_neutrality_invariant_witness :
    (odesystem 1 n).E = (odesystem 1 n).Ar_ion ∧
    (odesystem 1 n).E = k8 1 * (n.E * (n.Ar * 1)) + k9 1 * (n.E * (n.Ar4s * 1)) +
      k10 1 * (n.E * (n.Ar4p * 1)) ∧
    (eulerRun 1 1 [(0 : ℝ)] n).2.E - (eulerRun 1 1 [(0 : ℝ)] n).2.Ar_ion =
      n.E - n.Ar_ion :=
  charge_neutrality_invariant 1 one_pos n 1 [(0 : ℝ)]

/-- C3: for every coefficient quadruple and T > 0, `rate` returns exactly
A * 10^(-B) * T^C * exp(-D/T); in particular `k2` at T = 5.4 (the RateLaw
call with spec (5.0, 15, 0.74, 11.56)) returns
5.0 * 10^(-15) * 5.4^0.74 * exp(-11.56/5.4). -/
theorem rate_law_formula (A B C D T : ℝ) (hT : 0 < T) :
    rate A B C D T = A * (10 : ℝ) ^ (-B) * T ^ C * Real.exp (-D / T) ∧
    k2 5.4 = 5.0 * (10 : ℝ) ^ (-(15 : ℝ)) * (5.4 : ℝ) ^ (0.74 : ℝ) *
      Real.exp (-11.56 / 5.4) := by
  refine ⟨rfl, ?_⟩
  unfold k2 rate
  norm_num

/-- C3 witness at the quadruple (1, 0, 1, 1) and T = 1. -/
theorem rate_law_formula_witness :
    rate 1 0 1 1 1 = 1 * (10 : ℝ) ^ (-(0 : ℝ)) * (1 : ℝ) ^ (1 : ℝ) *
      Real.exp (-(1 : ℝ) / 1) ∧
    k2 5.4 = 5.0 * (10 : ℝ) ^ (-(15 : ℝ)) * (5.4 : ℝ) ^ (0.74 : ℝ) *
      Real.exp (-11.56 / 5.4) :=
  rate_law_formula 1 0 1 1 1 one_pos

/-- C4: reaction 1's rate k1(T) · n(Electron) · n(GroundState) heads the
computed rate list but enters no derivative; each of the five derivative
components is exactly the signed sum over R2..R10 given by the
stoichiometric table. -/
theorem stoichiometric_table (T : ℝ) (nn : Density) :
    (reaction_rates T nn).getD 0 0 = k1 T * nn.E * nn.Ar ∧
    odesystem T nn =
      { E := k8 T * nn.E * nn.Ar + k9 T * nn.E * nn.Ar4s + k10 T * nn.E * nn.Ar4p
        Ar := -(k2 T * nn.E * nn.Ar) + k3 T * nn.E * nn.Ar4s - k4 T * nn.E * nn.Ar +
          k5 T * nn.E * nn.Ar4p - k8 T * nn.E * nn.Ar
        Ar4s := k2 T * nn.E * nn.Ar - k3 T * nn.E * nn.Ar4s - k6 T * nn.E * nn.Ar4s +
          k7 T * nn.E * nn.Ar4p - k9 T * nn.E * nn.Ar4s
        Ar4p := k4 T * nn.E * nn.Ar - k5 T * nn.E * nn.Ar4p + k6 T * nn.E * nn.Ar4s -
          k7 T * nn.E * nn.Ar4p - k10 T * nn.E * nn.Ar4p
        Ar_ion := k8 T * nn.E * nn.Ar + k9 T * nn.E * nn.Ar4s +
          k10 T * nn.E * nn.Ar4p } := by
  constructor
  · rw [reaction_rates_def]
    show k1 T * (nn.E * (nn.Ar * 1)) = _
    ring
  · rw [odesystem_def]
    simp only [Density.mk.injEq]
    refine ⟨by ring, by ring, by ring, by ring, by ring⟩

/-- C8: with all five densities ≥ 0 and T > 0, each of the ten computed
reaction rates is ≥ 0. -/
theorem reaction_rates_nonneg (T : ℝ) (nn : Density) (hT : 0 < T)
    (hE : 0 ≤ nn.E) (hAr : 0 ≤ nn.Ar) (h4s : 0 ≤ nn.Ar4s) (h4p : 0 ≤ nn.Ar4p)
    (hIon : 0 ≤ nn.Ar_ion) :
    List.Forall (fun r => 0 ≤ r) (reaction_rates T nn) := by
  have pra : 0 ≤ nn.E * (nn.Ar * 1) := mul_nonneg hE (mul_nonneg hAr zero_le_one)
  have prs : 0 ≤ nn.E * (nn.Ar4s * 1) := mul_nonneg hE (mul_nonneg h4s zero_le_one)
  have prp : 0 ≤ nn.E * (nn.Ar4p * 1) := mul_nonneg hE (mul_nonneg h4p zero_le_one)
  rw [reaction_rates_def]
  exact ⟨mul_nonneg (k1_pos T hT).le pra,
    mul_nonneg (rate_pos 5.0 15.0 0.74 11.56 T (by norm_num) hT).le pra,
    mul_nonneg (rate_pos 4.3 16.0 0.74 0 T (by norm_num) hT).le prs,
    mul_nonneg (rate_pos 1.4 14 0.71 13.2 T (by norm_num) hT).le pra,
    mul_nonneg (rate_pos 3.9 16 0.71 0 T (by norm_num) hT).le prp,
    mul_nonneg (rate_pos 8.9 13 0.51 1.59 T (by norm_num) hT).le prs,
    mul_nonneg (rate_pos 3 13 0.51 0 T (by norm_num) hT).le prp,
    mul_nonneg (rate_pos 2.9 14 0.68 15.759 T (by norm_num) hT).le pra,
    mul_nonneg (rate_pos 6.8 15 0.67 4.2 T (by norm_num) hT).le prs,
    mul_nonneg (rate_pos 1.8 13 0.61 2.61 T (by norm_num) hT).le prp⟩

/-- C8 witness at T = 1 and unit densities. -/
theorem reaction_rates_nonneg_witness :
    List.Forall (fun r => 0 ≤ r) (reaction_rates 1 ⟨1, 1, 1, 1, 1⟩) :=
  reaction_rates_nonneg 1 ⟨1, 1, 1, 1, 1⟩ one_pos zero_le_one zero_le_one zero_le_one
    zero_le_one zero_le_one

/-- C9: for T > 0 the dedicated coefficient k1 agrees with the general
rate law at (A = 2.34e-14, B = 0, C = 0.59, D = 15.76), and with its own
direct formula. -/
theorem k1_matches_general_rate (T : ℝ) (hT : 0 < T) :
    k1 T = rate 2.34e-14 0 0.59 15.76 T ∧
    k1 T = 2.34e-14 * T ^ (0.59 : ℝ) * Real.exp (-15.76 / T) := by
  refine ⟨?_, rfl⟩
  unfold k1 rate
  rw [neg_zero, Real.rpow_zero, mul_one]

/-- C9 witness at T = 1. -/
theorem k1_matches_general_rate_witness :
    k1 1 = rate 2.34e-14 0 0.59 15.76 1 ∧
    k1 1 = 2.34e-14 * (1 : ℝ) ^ (0.59 : ℝ) * Real.exp (-15.76 / 1) :=
  k1_matches_general_rate 1 one_pos

/-- The source's `result` is the trajectory of the reference run. -/
theorem result_eq : result = (integrate Te n tspan.1 tspan.2 dt).1 := rfl

/-- The reference grid `np.arange(tspan[0], tspan[1], dt)` has exactly
50000 points (5e-8 / 1e-12 = 50000 exactly, also in IEEE doubles). -/
theorem arangeLen_tspan : arangeLen tspan.1 tspan.2 dt = 50000 := by
  show arangeLen 0.0 (5e-8) (1e-12) = 50000
  unfold arangeLen
  norm_num
  rfl

/-- C2 counterexample: with t0 = 0, tEnd = 3/2, dt = 1 — a configuration
where dt does not divide the time range — the loop records 2 samples,
while the claim's formula floor((tEnd − t0)/dt) gives 1. -/
theorem sample_count_counterexample :
    (integrate Te n 0 (3 / 2) 1).1.length = 2 ∧ (⌊(((3 : ℝ) / 2) - 0) / 1⌋).toNat = 1 := by
  constructor
  · rw [integrate_fst_length, arangeLen_three_halves]
  · norm_num

/-- C2 amended: the integrator records the state first and then updates
it (the trajectory is the list of Euler iterates, starting with the
initial state), over the half-open grid of `np.arange`, whose size is the
CEILING of (tEnd − t0)/dt, not the floor (the two agree exactly when dt
divides the range); the reference run t0 = 0, tEnd = 5e-8, dt = 1e-12
has exactly 50000 samples, the first being the initial state. -/
theorem sample_count_amended (T : ℝ) (n0 : Density) (t0 tEnd d : ℝ)
    (hdt : 0 < d) (hspan : t0 < tEnd) :
    (integrate T n0 t0 tEnd d).1 =
      (List.range (arangeLen t0 tEnd d)).map (fun k => stepN T d k n0) ∧
    arangeLen t0 tEnd d = (⌈(tEnd - t0) / d⌉).toNat ∧
    (integrate T n0 t0 tEnd d).1.head? = some n0 ∧
    result.length = 50000 ∧
    result.head? = some n := by
  refine ⟨integrate_fst T n0 t0 tEnd d, rfl, ?_, ?_, ?_⟩
  · exact integrate_head T n0 t0 tEnd d
      (Nat.pos_iff_ne_zero.mp (arangeLen_pos t0 tEnd d hspan hdt))
  · rw [result_eq, integrate_fst_length, arangeLen_tspan]
  · rw [result_eq]
    exact integrate_head Te n tspan.1 tspan.2 dt (by rw [arangeLen_tspan]; omega)

/-- C2 witness at T = 1, t0 = 0, tEnd = 1, dt = 1, starting from the
source's initial densities. -/
theorem sample_count_amended_witness :
    (integrate 1 n 0 1 1).1 =
      (List.range (arangeLen 0 1 1)).map (fun k => stepN 1 1 k n) ∧
    arangeLen 0 1 1 = (⌈((1 : ℝ) - 0) / 1⌉).toNat ∧
    (integrate 1 n 0 1 1).1.head? = some n ∧
    result.length = 50000 ∧
    result.head? = some n :=
  sample_count_amended 1 n 0 1 1 one_pos one_pos

/-- C5 counterexample: T = −1 is a non-positive temperature — one of the
claim's configuration errors — yet with t0 = 0, tEnd = 1, dt = 1 the
loop starts stepping and records one sample, so the error is not
detected before integration. -/
theorem no_validation_counterexample : (integrate (-1) n 0 1 1).1.length = 1 := by
  rw [integrate_fst_length, arangeLen_unit]

/-- C5 amended: the source performs no configuration validation at all.
For any temperature at which Python raises no exception (T ≠ 0) the loop
simply runs its `np.arange` count of iterations; an empty or backward
time range with positive step yields no samples and no state update, but
only because the grid is empty — no error is detected or raised, and a
non-positive temperature does not prevent stepping. -/
theorem no_validation_amended (T t0 tEnd d : ℝ) (n0 : Density) (hT : T ≠ 0) :
    (integrate T n0 t0 tEnd d).1.length = arangeLen t0 tEnd d ∧
    (tEnd ≤ t0 → 0 < d →
      (integrate T n0 t0 tEnd d).1 = [] ∧ (integrate T n0 t0 tEnd d).2 = n0) := by
  refine ⟨integrate_fst_length T n0 t0 tEnd d, fun h1 h2 => ?_⟩
  have hz : arangeLen t0 tEnd d = 0 := arangeLen_eq_zero t0 tEnd d h1 h2
  have htr : trange t0 tEnd d = [] := by
    unfold trange
    rw [hz]
    rfl
  constructor
  · show (eulerRun T d (trange t0 tEnd d) n0).1 = []
    rw [htr]
    rfl
  · show (eulerRun T d (trange t0 tEnd d) n0).2 = n0
    rw [htr]
    rfl

/-- C5 witness at T = −1 (not rejected), empty range 0 to 0, unit step. -/
theorem no_validation_amended_witness :
    (integrate (-1) n 0 0 1).1.length = arangeLen 0 0 1 ∧
    ((0 : ℝ) ≤ 0 → (0 : ℝ) < 1 →
      (integrate (-1) n 0 0 1).1 = [] ∧ (integrate (-1) n 0 0 1).2 = n) :=
  no_validation_amended (-1) 0 0 1 n (neg_ne_zero.mpr one_ne_zero)

/-- C6 counterexample: at the negative temperature T = −1 (which the
claim says must raise a configuration error) the `rate` call raises no
exception at all — Python returns a (complex) value. -/
theorem ratePy_neg_counterexample : okay (ratePy 5.0 15 0.74 11.56 (-1)) = true := by
  unfold ratePy
  rw [if_neg (by norm_num : ¬((-1 : ℝ) = 0))]
  rfl

/-- C6 amended: calling `rate` with T = 0 raises `ZeroDivisionError`
(an uncaught arithmetic exception from `-D / T`, not an explicit
configuration check), so no infinite or NaN value is returned; but a
negative temperature is not rejected: for every T ≠ 0 the call returns a
value without raising. -/
theorem ratePy_amended (A B C D T : ℝ) :
    (T = 0 → ratePy A B C D T = Except.error zeroDivErr) ∧
    (T ≠ 0 → okay (ratePy A B C D T) = true) := by
  constructor
  · intro h
    unfold ratePy
    rw [if_pos h]
  · intro h
    unfold ratePy
    rw [if_neg h]
    rfl

/-- C6 witness: the quadruple (1, 1, 1, 1) with T = 0 errors and with
T = −1 succeeds. -/
theorem ratePy_amended_witness :
    ratePy 1 1 1 1 0 = Except.error zeroDivErr ∧ okay (ratePy 1 1 1 1 (-1)) = true :=
  ⟨(ratePy_amended 1 1 1 1 0).1 rfl,
   (ratePy_amended 1 1 1 1 (-1)).2 (neg_ne_zero.mpr one_ne_zero)⟩

end ArgonModel

namespace TecLoader

open ArgonModel

/-- `process_tec_file` written as its three-way branch on the computed
headers and flat numeric block. -/
theorem ptf_eq {α : Type} (pf : String → Option α) (lines : List String) :
    process_tec_file pf lines =
      (if headersOf lines = [] then Except.error errNoVars
       else if (dataOf pf lines).length % (headersOf lines).length ≠ 0 then
         Except.error errInconsistent
       else Except.ok ((headersOf lines).enum.map
         (fun p => (p.2, ((dataOf pf lines).drop
           (p.1 * ((dataOf pf lines).length / (headersOf lines).length))).take
           ((dataOf pf lines).length / (headersOf lines).length))))) := rfl

/-- A data line with an unparsable token contributes nothing: the whole
line is skipped and collection continues with the remaining lines. -/
theorem collect_skip {α : Type} (pf : String → Option α) (line : String)
    (rest : List String)
    (hz : containsS (upperS line) zoneKw = false)
    (hne : ¬ trimS line = "")
    (ht : startsWithS (upperS (trimS line)) titleKw = false)
    (hv : startsWithS (upperS (trimS line)) varKw = false)
    (hfail : parseAll pf (splitWsS (trimS line)) = none) :
    collectData pf (line :: rest) = collectData pf rest := by
  rw [collectData]
  rw [hz]
  simp only [Bool.false_eq_true, if_false]
  rw [if_neg]
  · rw [hfail]
  · simp [hne, ht, hv]

/-- A header line of a small concrete input file. -/
def wline1 : String := "VARIABLES = \x22t\x22 \x22ne\x22"

/-- The zone line of the concrete input file. -/
def wline2 : String := "ZONE I=2"

/-- A numeric data line. -/
def wline3 : String := "1 2"

/-- A numeric data line. -/
def wline4 : String := "3 4"

/-- A data line with an unparsable token in the middle. -/
def wbad : String := "1 x 2"

/-- An extra data line that breaks divisibility by the column count. -/
def wextra : String := "5"

/-- A well-formed concrete file: 2 columns, 4 values. -/
def wlines : List String := [wline1, wline2, wline3, wline4]

/-- A concrete file whose value count (3) is not divisible by its column
count (2). -/
def wlinesErr : List String := [wline1, wline2, wline3, wextra]

/-- A concrete file containing a skippable bad data line. -/
def wlines10 : List String := [wline1, wline2, wline3, wbad, wline4]

/-- C7: the loader fails exactly when the header scan finds no column
names or when the flat numeric block's length is not divisible by the
column count; otherwise it succeeds and returns one `(name, values)`
pair per named column, column i taking the slice of the flat block from
i·numPoints to (i+1)·numPoints − 1 (column-major reshape). -/
theorem tec_loader_contract {α : Type} (pf : String → Option α) (lines : List String) :
    (okay (process_tec_file pf lines) = false ↔
      headersOf lines = [] ∨ (dataOf pf lines).length % (headersOf lines).length ≠ 0) ∧
    (headersOf lines ≠ [] → (dataOf pf lines).length % (headersOf lines).length = 0 →
      process_tec_file pf lines = Except.ok ((headersOf lines).enum.map
        (fun p => (p.2, ((dataOf pf lines).drop
          (p.1 * ((dataOf pf lines).length / (headersOf lines).length))).take
          ((dataOf pf lines).length / (headersOf lines).length))))) := by
  rw [ptf_eq]
  by_cases h1 : headersOf lines = []
  · rw [if_pos h1]
    constructor
    · simp [okay, h1]
    · intro h
      exact absurd h1 h
  · rw [if_neg h1]
    by_cases h2 : (dataOf pf lines).length % (headersOf lines).length ≠ 0
    · rw [if_pos h2]
      constructor
      · simp [okay, h1, h2]
      · intro _ hdiv
        exact absurd hdiv h2
    · rw [if_neg h2]
      constructor
      · simp [okay, h1, h2]
      · intro _ _
        rfl

/-- C7 witness: a 2-column file with an indivisible value count is
rejected (the failure test evaluates to the divisibility condition), and
a well-formed 2-column, 4-value file is accepted with each column
getting its contiguous slice. -/
theorem tec_loader_contract_witness :
    (okay (process_tec_file natParse wlinesErr) = false ↔
      headersOf wlinesErr = [] ∨
        (dataOf natParse wlinesErr).length % (headersOf wlinesErr).length ≠ 0) ∧
    process_tec_file natParse wlines = Except.ok ((headersOf wlines).enum.map
      (fun p => (p.2, ((dataOf natParse wlines).drop
        (p.1 * ((dataOf natParse wlines).length / (headersOf wlines).length))).take
        ((dataOf natParse wlines).length / (headersOf wlines).length)))) :=
  ⟨(tec_loader_contract natParse wlinesErr).1,
   (tec_loader_contract natParse wlines).2 (by decide) (by decide)⟩

/-- C10: a data-block line containing a token that fails numeric parsing
is silently skipped in its entirety (no value of that line enters the
flat block, no error arises from it), and a file containing such lines
is still accepted whenever the count of successfully parsed values stays
divisible by the column count. -/
theorem bad_line_skipped {α : Type} (pf : String → Option α) (line : String)
    (rest lines : List String)
    (hz : containsS (upperS line) zoneKw = false)
    (hne : ¬ trimS line = "")
    (ht : startsWithS (upperS (trimS line)) titleKw = false)
    (hv : startsWithS (upperS (trimS line)) varKw = false)
    (hfail : parseAll pf (splitWsS (trimS line)) = none)
    (hhd : headersOf lines ≠ [])
    (hdiv : (dataOf pf lines).length % (headersOf lines).length = 0) :
    collectData pf (line :: rest) = collectData pf rest ∧
    okay (process_tec_file pf lines) = true := by
  constructor
  · exact collect_skip pf line rest hz hne ht hv hfail
  · rw [ptf_eq, if_neg hhd, if_neg (fun hc => hc hdiv)]
    rfl

/-- C10 witness: the line `1 x 2` is skipped whole, and the file
containing it is still accepted (remaining 4 values, 2 columns). -/
theorem bad_line_skipped_witness :
    collectData natParse (wbad :: [wline4]) = collectData natParse [wline4] ∧
    okay (process_tec_file natParse wlines10) = true :=
  bad_line_skipped natParse wbad [wline4] wlines10 (by decide) (by decide) (by decide)
    (by decide) (by decide) (by decide) (by decide)

end TecLoader
